import Mathlib

/-!
Shallow embedding of the netcheck probe scripts
(`scripts/tcp_port_check.py`, `scripts/http_check.py`,
`scripts/example_ping.py`) together with proofs about their observable
behaviour.

Each probe's `main` is modelled as a pure function from the argument
vector (`sys.argv`, program name included) and the disposition of the
probe's single network operation (given as an environment event) to a
record of the run's observable effects: the process exit code, the lines
written to stdout and stderr, and resource bookkeeping (socket creation
and closing for the TCP probe, the spawned command for the ping probe,
the requested URL for the HTTP probe).
-/

/-! ### Python string primitives used by the scripts -/

/-- Accumulate the remaining decimal digits of a Python integer literal,
allowing a single underscore between two digits, as CPython's `int(str)`
grammar does (`digit (digit | "_" digit)*`). -/
def pyDigitsAux : List Char → Nat → Option Nat
  | [], acc => some acc
  | '_' :: c :: cs, acc =>
      if c.isDigit then pyDigitsAux cs (acc * 10 + (c.toNat - '0'.toNat)) else none
  | c :: cs, acc =>
      if c.isDigit then pyDigitsAux cs (acc * 10 + (c.toNat - '0'.toNat)) else none

/-- Digit part of Python `int(str)`: at least one digit, underscores only
between digits. -/
def pyIntDigits : List Char → Option Nat
  | [] => none
  | c :: cs => if c.isDigit then pyDigitsAux cs (c.toNat - '0'.toNat) else none

/-- Strip leading and trailing whitespace, as Python `int(str)` does before
parsing (restricted to ASCII whitespace). -/
def pyStrip (l : List Char) : List Char :=
  ((l.dropWhile Char.isWhitespace).reverse.dropWhile Char.isWhitespace).reverse

/-- Python `int(port_str)` on a string (base 10): optional surrounding
whitespace, optional sign, then a nonempty digit run with single
underscores allowed between digits; `none` models the `ValueError` raised
on any other input (ASCII fragment of CPython's grammar). -/
def pyInt? (s : String) : Option Int :=
  match pyStrip s.toList with
  | '+' :: rest => (pyIntDigits rest).map (fun n => (n : Int))
  | '-' :: rest => (pyIntDigits rest).map (fun n => -(n : Int))
  | rest => (pyIntDigits rest).map (fun n => (n : Int))

/-- Python `':' in target` (membership of the one-character separator). -/
def containsColon (s : String) : Bool :=
  decide (':' ∈ s.toList)

/-- Split a character list at the LAST occurrence of `':'`, returning the
parts before and after it; `none` when no colon occurs. This is
`target.rsplit(':', 1)` restricted to the one-colon-guaranteed case used
by `tcp_port_check.py` line 25. -/
def rsplitColonList : List Char → Option (List Char × List Char)
  | [] => none
  | c :: cs =>
    match rsplitColonList cs with
    | some (h, p) => some (c :: h, p)
    | none => if c = ':' then some ([], cs) else none

/-- `target.rsplit(':', 1)` unpacked into `(host, port_str)`; the script
only reaches this after checking `':' in target`, so the `none` fallback
is unreachable there. -/
def rsplitColon (s : String) : String × String :=
  match rsplitColonList s.toList with
  | some (h, p) => (String.mk h, String.mk p)
  | none => (s, String.mk [])

/-! ### TCP probe (`scripts/tcp_port_check.py`) -/

/-- Result of target parsing, lines 20-29 of `tcp_port_check.py`: either
an input-error diagnostic printed before any socket work, or a host and
port. -/
inductive TcpParse where
  | inputError (msg : String)
  | ok (host : String) (port : Int)
deriving DecidableEq, Repr

/-- Diagnostic of line 21 of `tcp_port_check.py`. -/
def invalidFormatMsg : String :=
  "Error: Invalid format. Expected hostname:port (e.g., example.com:80)"

/-- Diagnostic of line 28 of `tcp_port_check.py`. -/
def invalidPortMsg : String :=
  "Error: Invalid port number"

/-- Lines 20-29 of `tcp_port_check.py`: reject a target without `':'`,
otherwise split at the last `':'` and run `int` on the port substring;
`ValueError` becomes the invalid-port diagnostic. -/
def parseTcpTarget (target : String) : TcpParse :=
  if containsColon target = false then TcpParse.inputError invalidFormatMsg
  else
    match pyInt? (rsplitColon target).2 with
    | none => TcpParse.inputError invalidPortMsg
    | some port => TcpParse.ok (rsplitColon target).1 port

/-- Disposition of the single `sock.connect_ex((host, port))` call:
it returns an errno value, or raises `socket.gaierror`,
`socket.timeout`, or some other exception (modelled with its message). -/
inductive TcpConnectResult where
  | ok (code : Int)
  | gaierror
  | sockTimeout
  | otherExc (msg : String)
deriving DecidableEq, Repr

/-- Observable effects of one run of the TCP probe process. -/
structure TcpResult where
  exitCode : Nat
  stdout : List String
  stderr : List String
  sockCreated : Bool
  sockClosed : Bool
  connectAttempted : Bool
deriving DecidableEq, Repr

/-- Diagnostic of line 44 of `tcp_port_check.py`. -/
def portNotReachableMsg (port : Int) (host : String) : String :=
  "Port " ++ (toString port ++ (" on " ++ (host ++ " is not reachable")))

/-- Diagnostic of line 47 of `tcp_port_check.py`. -/
def resolveFailMsg (host : String) : String :=
  "Error: Could not resolve hostname " ++ host

/-- Diagnostic of line 50 of `tcp_port_check.py`. -/
def tcpTimeoutMsg (host : String) (port : Int) : String :=
  "Connection to " ++ (host ++ (":" ++ (toString port ++ " timed out")))

/-- Diagnostics of the generic `except Exception` handlers
(`tcp_port_check.py` line 53, `http_check.py` line 47,
`example_ping.py` line 42). -/
def genericErrMsg (msg : String) : String :=
  "Error: " ++ msg

/-- `main` of `tcp_port_check.py`. `argv` is `sys.argv` (program name
included); `net` is the disposition of the one `connect_ex` call. The
field values record, branch by branch, which lines print, which exit code
`sys.exit` receives, whether the socket of line 32 was created, whether
`sock.close()` (line 37) ran, and whether the connect was attempted. -/
def tcpMain (argv : List String) (net : TcpConnectResult) : TcpResult :=
  if argv.length < 2 then
    ⟨1, [], ["Error: No hostname provided"], false, false, false⟩
  else
    match parseTcpTarget (argv.getD 1 (String.mk [])) with
    | TcpParse.inputError msg =>
        ⟨1, [], [msg], false, false, false⟩
    | TcpParse.ok host port =>
        match net with
        | TcpConnectResult.ok code =>
            if code = 0 then
              ⟨0, [], [], true, true, true⟩
            else
              ⟨1, [], [portNotReachableMsg port host], true, true, true⟩
        | TcpConnectResult.gaierror =>
            ⟨1, [], [resolveFailMsg host], true, false, true⟩
        | TcpConnectResult.sockTimeout =>
            ⟨1, [], [tcpTimeoutMsg host port], true, false, true⟩
        | TcpConnectResult.otherExc msg =>
            ⟨1, [], [genericErrMsg msg], true, false, true⟩

/-! ### HTTP probe (`scripts/http_check.py`) -/

/-- Python `url.startswith(('http://', 'https://'))` (line 21),
an OR over the two literal prefixes, case-sensitively. -/
def startsWithHttp (url : String) : Bool :=
  ("http://".toList).isPrefixOf url.toList || ("https://".toList).isPrefixOf url.toList

/-- Lines 21-22 of `http_check.py`: prepend `http://` when neither scheme
prefix is present. -/
def normalizeUrl (url : String) : String :=
  if startsWithHttp url then url else "http://" ++ url

/-- Disposition of the single `urllib.request.urlopen(url, timeout=5)`
call: a returned response whose `getcode()` is `code`, or one of the
exceptions the script catches (`HTTPError` with code and reason,
`URLError` with reason, `TimeoutError`, anything else). -/
inductive HttpEvent where
  | response (code : Int)
  | httpError (code : Int) (reason : String)
  | urlError (reason : String)
  | timeoutError
  | otherExc (msg : String)
deriving DecidableEq, Repr

/-- Observable effects of one run of the HTTP probe process; `requested`
is the URL handed to `urlopen`, `none` when no request was made. -/
structure HttpResult where
  exitCode : Nat
  stdout : List String
  stderr : List String
  requested : Option String
deriving DecidableEq, Repr

/-- Diagnostic of line 33 of `http_check.py`, with the interpolated status
code kept as an explicit append. -/
def httpFailedMsg (code : Int) : String :=
  "HTTP check failed: status code " ++ toString code

/-- Diagnostic of line 38 of `http_check.py` (`HTTP error: {code} {reason}`). -/
def httpErrorMsg (code : Int) (reason : String) : String :=
  "HTTP error: " ++ (toString code ++ (" " ++ reason))

/-- Diagnostic of line 41 of `http_check.py`. -/
def connErrorMsg (reason : String) : String :=
  "Connection error: " ++ reason

/-- Diagnostic of line 44 of `http_check.py`. -/
def httpTimeoutMsg (url : String) : String :=
  "Request to " ++ (url ++ " timed out")

/-- `main` of `http_check.py`. `argv` is `sys.argv`; `net` is the
disposition of the one `urlopen` call on the normalized URL. -/
def httpMain (argv : List String) (net : HttpEvent) : HttpResult :=
  if argv.length < 2 then
    ⟨1, [], ["Error: No URL provided"], none⟩
  else
    let url := normalizeUrl (argv.getD 1 (String.mk []))
    match net with
    | HttpEvent.response code =>
        if 200 ≤ code ∧ code < 400 then
          ⟨0, [], [], some url⟩
        else
          ⟨1, [], [httpFailedMsg code], some url⟩
    | HttpEvent.httpError code reason =>
        ⟨1, [], [httpErrorMsg code reason], some url⟩
    | HttpEvent.urlError reason =>
        ⟨1, [], [connErrorMsg reason], some url⟩
    | HttpEvent.timeoutError =>
        ⟨1, [], [httpTimeoutMsg url], some url⟩
    | HttpEvent.otherExc msg =>
        ⟨1, [], [genericErrMsg msg], some url⟩

/-! ### ICMP/ping probe (`scripts/example_ping.py`) -/

/-- Lines 18-23 of `example_ping.py`: the platform-dependent ping command. -/
def pingCmd (isWindows : Bool) (hostname : String) : List String :=
  if isWindows then ["ping", "-n", "1", "-w", "2000", hostname]
  else ["ping", "-c", "1", "-W", "2", hostname]

/-- Disposition of the single `subprocess.run(cmd, capture_output=True,
timeout=5)` call: the child completed with some return code, the
supervising timeout expired, or some other exception. -/
inductive PingEvent where
  | completed (returncode : Int)
  | timeoutExpired
  | otherExc (msg : String)
deriving DecidableEq, Repr

/-- Observable effects of one run of the ping probe process; `spawnedCmd`
is the argument vector handed to `subprocess.run`, `none` when no child
was spawned. -/
structure PingResult where
  exitCode : Nat
  stdout : List String
  stderr : List String
  spawnedCmd : Option (List String)
deriving DecidableEq, Repr

/-- Diagnostic of line 35 of `example_ping.py`. -/
def pingFailedMsg (hostname : String) : String :=
  "Ping to " ++ (hostname ++ " failed")

/-- Diagnostic of line 38 of `example_ping.py`. -/
def pingTimeoutMsg (hostname : String) : String :=
  "Ping to " ++ (hostname ++ " timed out")

/-- `main` of `example_ping.py`. `argv` is `sys.argv`; `isWindows` is the
result of the `platform.system().lower() == "windows"` test; `net` is the
disposition of the one `subprocess.run` call. -/
def pingMain (isWindows : Bool) (argv : List String) (net : PingEvent) : PingResult :=
  if argv.length < 2 then
    ⟨1, [], ["Error: No hostname provided"], none⟩
  else
    let hostname := argv.getD 1 (String.mk [])
    let cmd := pingCmd isWindows hostname
    match net with
    | PingEvent.completed rc =>
        if rc = 0 then
          ⟨0, [], [], some cmd⟩
        else
          ⟨1, [], [pingFailedMsg hostname], some cmd⟩
    | PingEvent.timeoutExpired =>
        ⟨1, [], [pingTimeoutMsg hostname], some cmd⟩
    | PingEvent.otherExc msg =>
        ⟨1, [], [genericErrMsg msg], some cmd⟩

/-! ### Generic notions used by the theorems -/

/-- The string `needle` occurs as a contiguous substring of `hay`. -/
def containsSub (hay needle : String) : Prop :=
  ∃ a b, hay = a ++ (needle ++ b)

/-! ### Helper lemmas about the splitting of `host:port` targets -/

/-- `rsplitColonList` returns `none` exactly on colon-free inputs. -/
theorem rsplitColonList_eq_none : ∀ l : List Char, rsplitColonList l = none ↔ ':' ∉ l
  | [] => by simp [rsplitColonList]
  | c :: cs => by
    have ih := rsplitColonList_eq_none cs
    rw [rsplitColonList]
    cases h : rsplitColonList cs with
    | some hp =>
      obtain ⟨h1, p1⟩ := hp
      have hcs : ':' ∈ cs := by
        by_contra hn
        rw [ih.mpr hn] at h
        cases h
      simp [hcs]
    | none =>
      by_cases hc : c = ':'
      · subst hc
        simp
      · simp [hc, ih.mp h, eq_comm]

/-- A successful `rsplitColonList` reassembles the input around its last
colon, and the part after the split is colon-free. -/
theorem rsplitColonList_sound : ∀ (l h p : List Char),
    rsplitColonList l = some (h, p) → h ++ ':' :: p = l ∧ ':' ∉ p
  | [], h, p => by
    intro he
    cases he
  | c :: cs, h, p => by
    rw [rsplitColonList]
    cases hcs : rsplitColonList cs with
    | some hp =>
      obtain ⟨h1, p1⟩ := hp
      intro he
      simp only [Option.some.injEq, Prod.mk.injEq] at he
      obtain ⟨eh, ep⟩ := he
      have hrec := rsplitColonList_sound cs h1 p1 hcs
      subst eh
      subst ep
      exact ⟨by rw [List.cons_append, hrec.1], hrec.2⟩
    | none =>
      by_cases hc : c = ':'
      · subst hc
        rw [if_pos rfl]
        intro he
        simp only [Option.some.injEq, Prod.mk.injEq] at he
        obtain ⟨eh, ep⟩ := he
        subst eh
        subst ep
        exact ⟨rfl, (rsplitColonList_eq_none cs).mp hcs⟩
      · rw [if_neg hc]
        intro he
        cases he

/-- On a target containing a colon, `rsplitColon` splits at the LAST
colon: the two parts reassemble to the input and the port part is
colon-free. -/
theorem rsplitColon_spec (t : String) (hc : containsColon t = true) :
    (rsplitColon t).1.toList ++ ':' :: (rsplitColon t).2.toList = t.toList ∧
      ':' ∉ (rsplitColon t).2.toList := by
  have hmem : ':' ∈ t.toList := of_decide_eq_true hc
  unfold rsplitColon
  cases hE : rsplitColonList t.toList with
  | none => exact absurd hmem ((rsplitColonList_eq_none t.toList).mp hE)
  | some hp =>
    obtain ⟨h, p⟩ := hp
    exact rsplitColonList_sound t.toList h p hE

/-! ### Helper lemmas about the probe mains -/

/-- The TCP probe always terminates via `sys.exit(0)` or `sys.exit(1)`. -/
theorem tcpMain_exit01 (argv : List String) (net : TcpConnectResult) :
    (tcpMain argv net).exitCode = 0 ∨ (tcpMain argv net).exitCode = 1 := by
  unfold tcpMain
  repeat' split
  all_goals simp

/-- The HTTP probe always terminates via `sys.exit(0)` or `sys.exit(1)`. -/
theorem httpMain_exit01 (argv : List String) (net : HttpEvent) :
    (httpMain argv net).exitCode = 0 ∨ (httpMain argv net).exitCode = 1 := by
  unfold httpMain
  repeat' split
  all_goals simp

/-- The ping probe always terminates via `sys.exit(0)` or `sys.exit(1)`. -/
theorem pingMain_exit01 (isWindows : Bool) (argv : List String) (net : PingEvent) :
    (pingMain isWindows argv net).exitCode = 0 ∨ (pingMain isWindows argv net).exitCode = 1 := by
  unfold pingMain
  repeat' split
  all_goals simp

/-- The TCP probe exits 0 exactly when the connect was attempted and
`connect_ex` returned 0. -/
theorem tcpMain_success_iff (argv : List String) (net : TcpConnectResult) :
    (tcpMain argv net).exitCode = 0 ↔
      ((tcpMain argv net).connectAttempted = true ∧ net = TcpConnectResult.ok 0) := by
  unfold tcpMain
  repeat' split
  all_goals simp_all

/-- The HTTP probe exits 0 exactly when a request was made and `urlopen`
returned a response whose status code lies in `[200, 400)`. -/
theorem httpMain_success_iff (argv : List String) (net : HttpEvent) :
    (httpMain argv net).exitCode = 0 ↔
      ((httpMain argv net).requested.isSome = true ∧
        ∃ c, net = HttpEvent.response c ∧ 200 ≤ c ∧ c < 400) := by
  unfold httpMain
  repeat' split
  all_goals simp_all

/-- The ping probe exits 0 exactly when the child was spawned and
completed with return code 0. -/
theorem pingMain_success_iff (isWindows : Bool) (argv : List String) (net : PingEvent) :
    (pingMain isWindows argv net).exitCode = 0 ↔
      ((pingMain isWindows argv net).spawnedCmd.isSome = true ∧
        net = PingEvent.completed 0) := by
  unfold pingMain
  repeat' split
  all_goals simp_all

/-- The TCP probe is silent on exit 0 and writes exactly one stderr line
on exit 1; stdout is never written. -/
theorem tcpMain_output (argv : List String) (net : TcpConnectResult) :
    ((tcpMain argv net).exitCode = 0 ∧ (tcpMain argv net).stdout = [] ∧
        (tcpMain argv net).stderr = []) ∨
      ((tcpMain argv net).exitCode = 1 ∧ (tcpMain argv net).stdout = [] ∧
        (tcpMain argv net).stderr.length = 1) := by
  unfold tcpMain
  repeat' split
  all_goals simp

/-- The HTTP probe is silent on exit 0 and writes exactly one stderr line
on exit 1; stdout is never written. -/
theorem httpMain_output (argv : List String) (net : HttpEvent) :
    ((httpMain argv net).exitCode = 0 ∧ (httpMain argv net).stdout = [] ∧
        (httpMain argv net).stderr = []) ∨
      ((httpMain argv net).exitCode = 1 ∧ (httpMain argv net).stdout = [] ∧
        (httpMain argv net).stderr.length = 1) := by
  unfold httpMain
  repeat' split
  all_goals simp

/-- The ping probe is silent on exit 0 and writes exactly one stderr line
on exit 1; stdout is never written. -/
theorem pingMain_output (isWindows : Bool) (argv : List String) (net : PingEvent) :
    ((pingMain isWindows argv net).exitCode = 0 ∧ (pingMain isWindows argv net).stdout = [] ∧
        (pingMain isWindows argv net).stderr = []) ∨
      ((pingMain isWindows argv net).exitCode = 1 ∧ (pingMain isWindows argv net).stdout = [] ∧
        (pingMain isWindows argv net).stderr.length = 1) := by
  unfold pingMain
  repeat' split
  all_goals simp

/-- When the target parses, the TCP probe creates its socket and attempts
the connect, whatever the connect's disposition. -/
theorem tcpMain_stage (argv : List String) (net : TcpConnectResult) (host : String)
    (port : Int) (hlen : ¬ argv.length < 2)
    (hp : parseTcpTarget (argv.getD 1 (String.mk [])) = TcpParse.ok host port) :
    (tcpMain argv net).sockCreated = true ∧ (tcpMain argv net).connectAttempted = true := by
  unfold tcpMain
  rw [if_neg hlen, hp]
  cases net with
  | ok code =>
    dsimp only
    split
    · exact ⟨rfl, rfl⟩
    · exact ⟨rfl, rfl⟩
  | gaierror => exact ⟨rfl, rfl⟩
  | sockTimeout => exact ⟨rfl, rfl⟩
  | otherExc msg => exact ⟨rfl, rfl⟩

/-- Past the argument check, the HTTP probe hands exactly the normalized
URL to `urlopen`, whatever the request's disposition. -/
theorem httpMain_requested (argv : List String) (net : HttpEvent)
    (hlen : ¬ argv.length < 2) :
    (httpMain argv net).requested = some (normalizeUrl (argv.getD 1 (String.mk []))) := by
  unfold httpMain
  rw [if_neg hlen]
  cases net with
  | response code =>
    dsimp only
    split
    · rfl
    · rfl
  | httpError code reason => rfl
  | urlError reason => rfl
  | timeoutError => rfl
  | otherExc msg => rfl

/-! ### Claim theorems -/

/-- Claim C1, counterexample: on `example.com:99999` the claim fails. The
port substring 99999 is accepted by the parser (no `InputError`), the
socket is created and the connect IS attempted; when the socket layer
then raises (as CPython does for an out-of-range port), the diagnostic is
the generic handler's, not an input-error one. -/
theorem c1_counterexample :
    parseTcpTarget ("example.com:99999") = TcpParse.ok ("example.com") 99999 ∧
    (tcpMain ["tcp_port_check.py", "example.com:99999"]
        (TcpConnectResult.otherExc ("getsockaddrarg: port must be 0-65535."))).sockCreated
      = true ∧
    (tcpMain ["tcp_port_check.py", "example.com:99999"]
        (TcpConnectResult.otherExc ("getsockaddrarg: port must be 0-65535."))).connectAttempted
      = true ∧
    (tcpMain ["tcp_port_check.py", "example.com:99999"]
        (TcpConnectResult.otherExc ("getsockaddrarg: port must be 0-65535."))).stderr
      = [genericErrMsg ("getsockaddrarg: port must be 0-65535.")] := by
  refine ⟨by decide, by decide, by decide, by decide⟩

/-- Claim C1, amended: the TCP probe performs no range validation on the
port. On `example.com:99999` the parse succeeds with port 99999, the
socket is created and the connect is attempted whatever the socket
layer's disposition; the run still exits 0 or 1, and when the connect
call raises an unanticipated exception (CPython's `OverflowError` here),
the generic handler exits 1 with an `Error: ...` diagnostic. -/
theorem c1_amended (net : TcpConnectResult) :
    parseTcpTarget ("example.com:99999") = TcpParse.ok ("example.com") 99999 ∧
    (tcpMain ["tcp_port_check.py", "example.com:99999"] net).sockCreated = true ∧
    (tcpMain ["tcp_port_check.py", "example.com:99999"] net).connectAttempted = true ∧
    ((tcpMain ["tcp_port_check.py", "example.com:99999"] net).exitCode = 0 ∨
      (tcpMain ["tcp_port_check.py", "example.com:99999"] net).exitCode = 1) ∧
    ∀ msg,
      (tcpMain ["tcp_port_check.py", "example.com:99999"]
          (TcpConnectResult.otherExc msg)).exitCode = 1 ∧
      (tcpMain ["tcp_port_check.py", "example.com:99999"]
          (TcpConnectResult.otherExc msg)).stderr = [genericErrMsg msg] := by
  have hstage := tcpMain_stage ["tcp_port_check.py", "example.com:99999"] net
    ("example.com") 99999 (by decide) (by decide)
  refine ⟨by decide, hstage.1, hstage.2, tcpMain_exit01 _ _, ?_⟩
  intro msg
  exact ⟨rfl, rfl⟩

/-- Claim C2, evaluation at the failing input: with an unresolvable host
the `connect_ex` call raises `socket.gaierror`; the handler prints and
exits 1 but never runs `sock.close()`, so the socket created at line 32
is not closed before termination. The connect-success and
connect-failure return paths do close it. -/
theorem c2_socket_leak_eval :
    (tcpMain ["tcp_port_check.py", "no-such-host.invalid:80"]
        TcpConnectResult.gaierror).sockCreated = true ∧
    (tcpMain ["tcp_port_check.py", "no-such-host.invalid:80"]
        TcpConnectResult.gaierror).sockClosed = false ∧
    (tcpMain ["tcp_port_check.py", "no-such-host.invalid:80"]
        TcpConnectResult.gaierror).exitCode = 1 ∧
    (tcpMain ["tcp_port_check.py", "no-such-host.invalid:80"]
        TcpConnectResult.gaierror).stderr
      = [resolveFailMsg ("no-such-host.invalid")] ∧
    (tcpMain ["tcp_port_check.py", "no-such-host.invalid:80"]
        TcpConnectResult.sockTimeout).sockClosed = false ∧
    (tcpMain ["tcp_port_check.py", "no-such-host.invalid:80"]
        (TcpConnectResult.ok 0)).sockClosed = true ∧
    (tcpMain ["tcp_port_check.py", "no-such-host.invalid:80"]
        (TcpConnectResult.ok 111)).sockClosed = true := by
  refine ⟨by decide, by decide, by decide, by decide, by decide, by decide, by decide⟩

/-- Claim C3: for every argument vector and every disposition of the one
network operation — including the catch-all exception case — each of the
three probes terminates through the exit-code mapping with status 0 or 1;
no disposition leads outside these classified exits. -/
theorem c3_no_unhandled_crash (argv : List String) (isWindows : Bool)
    (tnet : TcpConnectResult) (hnet : HttpEvent) (pnet : PingEvent) :
    ((tcpMain argv tnet).exitCode = 0 ∨ (tcpMain argv tnet).exitCode = 1) ∧
    ((httpMain argv hnet).exitCode = 0 ∨ (httpMain argv hnet).exitCode = 1) ∧
    ((pingMain isWindows argv pnet).exitCode = 0 ∨
      (pingMain isWindows argv pnet).exitCode = 1) :=
  ⟨tcpMain_exit01 argv tnet, httpMain_exit01 argv hnet,
    pingMain_exit01 isWindows argv pnet⟩

/-- Claim C4, counterexample: `":80"` has an empty host substring, yet
the TCP parse succeeds (host `""`, port 80) instead of failing with an
`InputError`. -/
theorem c4_counterexample :
    parseTcpTarget (":80") = TcpParse.ok ("") 80 := by decide

/-- Claim C4, amended: a TCP-probe argument without `':'` is rejected
with the invalid-format `InputError`; otherwise the argument is split on
the LAST `':'` (the parts reassemble to the input and the port part is
colon-free), and the parse fails — with the invalid-port `InputError` —
exactly when the port substring does not parse as a base-10 integer
(in particular when it is empty); an empty host substring is NOT
rejected. -/
theorem c4_amended (t : String) :
    (containsColon t = false →
      parseTcpTarget t = TcpParse.inputError invalidFormatMsg) ∧
    (containsColon t = true →
      (rsplitColon t).1.toList ++ ':' :: (rsplitColon t).2.toList = t.toList ∧
      ':' ∉ (rsplitColon t).2.toList ∧
      (pyInt? (rsplitColon t).2 = none →
        parseTcpTarget t = TcpParse.inputError invalidPortMsg) ∧
      ∀ n, pyInt? (rsplitColon t).2 = some n →
        parseTcpTarget t = TcpParse.ok (rsplitColon t).1 n) := by
  constructor
  · intro hc
    simp [parseTcpTarget, hc]
  · intro hc
    obtain ⟨hsplit, hfree⟩ := rsplitColon_spec t hc
    refine ⟨hsplit, hfree, ?_, ?_⟩
    · intro hn
      simp [parseTcpTarget, hc, hn]
    · intro n hn
      simp [parseTcpTarget, hc, hn]

/-- Claim C4, witness: the amended parse behaviour evaluated on the
concrete target `x:y:80` (split at the last colon, port parses). -/
theorem c4_amended_witness :
    parseTcpTarget ("x:y:80") = TcpParse.ok ("x:y") 80 :=
  ((((c4_amended ("x:y:80")).2 (by decide)).2.2.2) 80 (by decide)).trans (by decide)

/-- Claim C5: every invocation of each probe exits with status 0 or 1,
and status 0 occurs exactly when the probe's network operation succeeded:
`connect_ex` attempted and returning 0 (TCP), a response with status in
`[200, 400)` to the issued request (HTTP), a spawned ping child exiting 0
(ICMP). -/
theorem c5_exit_code_mapping (argv : List String) (isWindows : Bool)
    (tnet : TcpConnectResult) (hnet : HttpEvent) (pnet : PingEvent) :
    (((tcpMain argv tnet).exitCode = 0 ∨ (tcpMain argv tnet).exitCode = 1) ∧
      ((tcpMain argv tnet).exitCode = 0 ↔
        ((tcpMain argv tnet).connectAttempted = true ∧
          tnet = TcpConnectResult.ok 0))) ∧
    (((httpMain argv hnet).exitCode = 0 ∨ (httpMain argv hnet).exitCode = 1) ∧
      ((httpMain argv hnet).exitCode = 0 ↔
        ((httpMain argv hnet).requested.isSome = true ∧
          ∃ c, hnet = HttpEvent.response c ∧ 200 ≤ c ∧ c < 400))) ∧
    (((pingMain isWindows argv pnet).exitCode = 0 ∨
        (pingMain isWindows argv pnet).exitCode = 1) ∧
      ((pingMain isWindows argv pnet).exitCode = 0 ↔
        ((pingMain isWindows argv pnet).spawnedCmd.isSome = true ∧
          pnet = PingEvent.completed 0))) :=
  ⟨⟨tcpMain_exit01 argv tnet, tcpMain_success_iff argv tnet⟩,
    ⟨httpMain_exit01 argv hnet, httpMain_success_iff argv hnet⟩,
    ⟨pingMain_exit01 isWindows argv pnet, pingMain_success_iff isWindows argv pnet⟩⟩

/-- Claim C6: when the HTTP server's answer carries a status code in
`[200, 400)` the probe exits 0 with no output; a status code in
`[400, 600)` — whether surfaced as a returned response or as the
`HTTPError` urllib raises for 4xx/5xx — yields exit 1 with one
diagnostic line containing the numeric status code. -/
theorem c6_http_status_mapping (argv : List String) (c : Int) (reason : String)
    (hlen : 2 ≤ argv.length) :
    (200 ≤ c → c < 400 →
      (httpMain argv (HttpEvent.response c)).exitCode = 0 ∧
      (httpMain argv (HttpEvent.response c)).stdout = [] ∧
      (httpMain argv (HttpEvent.response c)).stderr = []) ∧
    (400 ≤ c → c < 600 →
      ((httpMain argv (HttpEvent.response c)).exitCode = 1 ∧
        (httpMain argv (HttpEvent.response c)).stderr = [httpFailedMsg c] ∧
        containsSub (httpFailedMsg c) (toString c)) ∧
      ((httpMain argv (HttpEvent.httpError c reason)).exitCode = 1 ∧
        (httpMain argv (HttpEvent.httpError c reason)).stderr = [httpErrorMsg c reason] ∧
        containsSub (httpErrorMsg c reason) (toString c))) := by
  have hlen' : ¬ argv.length < 2 := by omega
  constructor
  · intro h1 h2
    unfold httpMain
    rw [if_neg hlen']
    dsimp only
    rw [if_pos ⟨h1, h2⟩]
    exact ⟨rfl, rfl, rfl⟩
  · intro h4 h6
    have hno : ¬ (200 ≤ c ∧ c < 400) := by omega
    constructor
    · unfold httpMain
      rw [if_neg hlen']
      dsimp only
      rw [if_neg hno]
      refine ⟨rfl, rfl, "HTTP check failed: status code ", "", ?_⟩
      simp [httpFailedMsg]
    · unfold httpMain
      rw [if_neg hlen']
      refine ⟨rfl, rfl, "HTTP error: ", " " ++ reason, rfl⟩

/-- Claim C6, witness: the mapping evaluated at a 404 `HTTPError` and a
204 response on a two-element argument vector. -/
theorem c6_witness :
    (httpMain ["http_check.py", "example.com"]
        (HttpEvent.httpError 404 ("Not Found"))).exitCode = 1 ∧
    containsSub (httpErrorMsg 404 ("Not Found")) (toString (404 : Int)) ∧
    (httpMain ["http_check.py", "example.com"] (HttpEvent.response 204)).exitCode = 0 := by
  have h1 := (c6_http_status_mapping ["http_check.py", "example.com"] 404
    ("Not Found") (by decide)).2 (by decide) (by decide)
  have h2 := (c6_http_status_mapping ["http_check.py", "example.com"] 204
    ("No Content") (by decide)).1 (by decide) (by decide)
  exact ⟨h1.2.1, h1.2.2.2, h2.1⟩

/-- Claim C7: with no target argument (argument vector shorter than 2),
each probe exits 1 with a single input-error line on stderr and performs
no network operation: no socket is created, no connect attempted, no URL
requested, no child spawned. -/
theorem c7_missing_arg (argv : List String) (isWindows : Bool)
    (tnet : TcpConnectResult) (hnet : HttpEvent) (pnet : PingEvent)
    (h : argv.length < 2) :
    tcpMain argv tnet = ⟨1, [], ["Error: No hostname provided"], false, false, false⟩ ∧
    httpMain argv hnet = ⟨1, [], ["Error: No URL provided"], none⟩ ∧
    pingMain isWindows argv pnet = ⟨1, [], ["Error: No hostname provided"], none⟩ := by
  refine ⟨?_, ?_, ?_⟩
  · unfold tcpMain
    rw [if_pos h]
  · unfold httpMain
    rw [if_pos h]
  · unfold pingMain
    rw [if_pos h]

/-- Claim C7, witness: the missing-argument behaviour evaluated on the
one-element argument vector. -/
theorem c7_witness :
    tcpMain ["tcp_port_check.py"] TcpConnectResult.gaierror
        = ⟨1, [], ["Error: No hostname provided"], false, false, false⟩ ∧
    httpMain ["http_check.py"] HttpEvent.timeoutError
        = ⟨1, [], ["Error: No URL provided"], none⟩ := by
  have h := c7_missing_arg ["tcp_port_check.py"] false TcpConnectResult.gaierror
    HttpEvent.timeoutError PingEvent.timeoutExpired (by decide)
  have h2 := c7_missing_arg ["http_check.py"] false TcpConnectResult.gaierror
    HttpEvent.timeoutError PingEvent.timeoutExpired (by decide)
  exact ⟨h.1, h2.2.1⟩

/-- Claim C8: on every run of each probe, either the exit status is 0 and
nothing is written to stdout or stderr, or the exit status is nonzero
(always 1) and exactly one diagnostic line is written to stderr, stdout
staying empty. -/
theorem c8_output_discipline (argv : List String) (isWindows : Bool)
    (tnet : TcpConnectResult) (hnet : HttpEvent) (pnet : PingEvent) :
    (((tcpMain argv tnet).exitCode = 0 ∧ (tcpMain argv tnet).stdout = [] ∧
        (tcpMain argv tnet).stderr = []) ∨
      ((tcpMain argv tnet).exitCode = 1 ∧ (tcpMain argv tnet).stdout = [] ∧
        (tcpMain argv tnet).stderr.length = 1)) ∧
    (((httpMain argv hnet).exitCode = 0 ∧ (httpMain argv hnet).stdout = [] ∧
        (httpMain argv hnet).stderr = []) ∨
      ((httpMain argv hnet).exitCode = 1 ∧ (httpMain argv hnet).stdout = [] ∧
        (httpMain argv hnet).stderr.length = 1)) ∧
    (((pingMain isWindows argv pnet).exitCode = 0 ∧
        (pingMain isWindows argv pnet).stdout = [] ∧
        (pingMain isWindows argv pnet).stderr = []) ∨
      ((pingMain isWindows argv pnet).exitCode = 1 ∧
        (pingMain isWindows argv pnet).stdout = [] ∧
        (pingMain isWindows argv pnet).stderr.length = 1)) :=
  ⟨tcpMain_output argv tnet, httpMain_output argv hnet,
    pingMain_output isWindows argv pnet⟩

/-- Claim C9: the HTTP probe prepends `http://` to an argument beginning
with neither `http://` nor `https://` and leaves other arguments
unchanged; the request is issued against exactly this normalized URL. -/
theorem c9_url_normalization (url : String) (net : HttpEvent) :
    (startsWithHttp url = false → normalizeUrl url = "http://" ++ url) ∧
    (startsWithHttp url = true → normalizeUrl url = url) ∧
    (httpMain ["http_check.py", url] net).requested = some (normalizeUrl url) := by
  refine ⟨?_, ?_, ?_⟩
  · intro h
    simp [normalizeUrl, h]
  · intro h
    simp [normalizeUrl, h]
  · exact httpMain_requested ["http_check.py", url] net (Nat.lt_irrefl 2)

/-- Claim C9, witness: normalization evaluated on a bare hostname and on
an argument already carrying a scheme. -/
theorem c9_witness :
    normalizeUrl ("example.com") = "http://example.com" ∧
    normalizeUrl ("https://example.com") = "https://example.com" := by
  have h1 := (c9_url_normalization ("example.com") HttpEvent.timeoutError).1 (by decide)
  have h2 := (c9_url_normalization ("https://example.com") HttpEvent.timeoutError).2.1
    (by decide)
  exact ⟨h1.trans (by decide), h2⟩

/-- Claim C10: the scheme test is case-sensitive: `HTTP://example.com`
matches neither prefix, so the probe prepends `http://` and requests
`http://HTTP://example.com`, embedding the original scheme text. -/
theorem c10_case_sensitive_scheme :
    startsWithHttp ("HTTP://example.com") = false ∧
    normalizeUrl ("HTTP://example.com") = "http://HTTP://example.com" ∧
    (httpMain ["http_check.py", "HTTP://example.com"]
        (HttpEvent.urlError ("unreachable"))).requested
      = some ("http://HTTP://example.com") := by
  refine ⟨by decide, by decide, by decide⟩
